import Mathlib

/-!
Shallow embedding of the protocol-decoding core of the BlueSTSDK Python
repository: the STM32 CRC32 engine, the timestamp unwrapper, the advertising
data parser, the feature registration and multiplexing layer, the sample
value type, and the firmware-upload state machine.  Each definition is a
direct translation of the corresponding Python function; comments cite the
source file and the behaviour being modelled.
-/

/-- Python exception kinds raised by the modelled code paths. -/
inductive PyError
  | nameError
  | attributeError
  | valueError
  | structError
  | invalidAdvertisingData
  | invalidFeatureBitmask
  deriving DecidableEq, Repr

/-! ## blue_st_sdk/utils/number_conversion.py -/

/-- Embedding of `LittleEndian.uint32_to_bytes`: `struct.pack("<Q", value)[0:4]`,
the four least-significant bytes of `value`, little-endian. -/
def LittleEndian.uint32_to_bytes (value : Nat) : List Nat :=
  [value % 256, value / 2 ^ 8 % 256, value / 2 ^ 16 % 256, value / 2 ^ 24 % 256]

/-- Embedding of `LittleEndian.bytes_to_int32`:
`struct.unpack("<i", data[start : start + 4])[0]`.  `struct.unpack` raises
`struct.error` unless the slice holds exactly 4 bytes.  The Python result is
the signed value; the CRC code only feeds it to XOR-then-mask arithmetic, for
which only the 32-bit pattern matters, so the embedding returns the unsigned
32-bit pattern of the same four little-endian bytes. -/
def LittleEndian.bytes_to_int32 (data : List Nat) (start : Nat) : Except PyError Nat :=
  let s := (data.drop start).take 4
  match s with
  | [b0, b1, b2, b3] => .ok (b0 + b1 * 2 ^ 8 + b2 * 2 ^ 16 + b3 * 2 ^ 24)
  | _ => .error .structError

/-! ## blue_st_sdk/firmware_upgrade/utils/stm32crc32.py -/

def STM32Crc32.INITIAL_VALUE : Nat := 0xffffffff

/-- The 16-entry nibble lookup table for the 0x04C11DB7 polynomial
(`STM32Crc32.CRC_TABLE`). -/
def STM32Crc32.CRC_TABLE : List Nat :=
  [0x00000000, 0x04C11DB7, 0x09823B6E, 0x0D4326D9,
   0x130476DC, 0x17C56B6B, 0x1A864DB2, 0x1E475005,
   0x2608EDB8, 0x22C9F00F, 0x2F8AD6D6, 0x2B4BCB61,
   0x350C9B64, 0x31CD86D3, 0x3C8EA00A, 0x384FBDBD]

/-- Embedding of `STM32Crc32._urs`: `(value % 0x100000000) >> n`. -/
def STM32Crc32.urs (value n : Nat) : Nat := (value % 0x100000000) >>> n

/-- One of the eight identical rounds inside `STM32Crc32._crc32_fast`:
`crc = ((crc << 4) & 0xffffffff) ^ self.CRC_TABLE[self._urs(crc, 28)]`. -/
def STM32Crc32.round (crc : Nat) : Nat :=
  ((crc <<< 4) &&& 0xffffffff) ^^^ STM32Crc32.CRC_TABLE.getD (STM32Crc32.urs crc 28) 0

/-- Embedding of `STM32Crc32._crc32_fast`: XOR the data word into the running
CRC, then apply eight shift-and-table rounds. -/
def STM32Crc32.crc32_fast (crc data : Nat) : Nat :=
  STM32Crc32.round (STM32Crc32.round (STM32Crc32.round (STM32Crc32.round
    (STM32Crc32.round (STM32Crc32.round (STM32Crc32.round (STM32Crc32.round
      (crc ^^^ data))))))))

/-- The expression `LittleEndian.bytesToInt32(data, i * 4)` in
`STM32Crc32.update`.  `blue_st_sdk.utils.number_conversion.LittleEndian`
defines `bytes_to_int32` but no attribute named `bytesToInt32`, so the
attribute lookup raises `AttributeError` before the call arguments matter. -/
def LittleEndian.bytesToInt32_lookup : Except PyError Nat :=
  .error .attributeError

/-- The loop of `STM32Crc32.update`: `for i in range(0, len(data), 4)`, body
`tmp = LittleEndian.bytesToInt32(data, i * 4)` followed by
`self._current_crc = self._crc32_fast(self._current_crc, tmp)`.  The index
list is `[0, 4, 8, ...]`. -/
def STM32Crc32.update_loop (crc : Nat) : List Nat → Except PyError Nat
  | [] => .ok crc
  | _i :: rest => do
      let tmp ← LittleEndian.bytesToInt32_lookup
      STM32Crc32.update_loop (STM32Crc32.crc32_fast crc tmp) rest

/-- Embedding of `STM32Crc32.update`: reject data whose length is not a
multiple of 4 with `ValueError`, then run the word loop (whose body raises
`AttributeError` on its first iteration, see
`LittleEndian.bytesToInt32_lookup`). -/
def STM32Crc32.update (crc : Nat) (data : List Nat) : Except PyError Nat :=
  if data.length % 4 ≠ 0 then .error .valueError
  else STM32Crc32.update_loop crc (List.range' 0 (data.length / 4) 4)

/-- The loop of `STM32Crc32.update` with the attribute name repaired to the
existing `bytes_to_int32`, keeping the rest of the statement as written:
the word for index `i` is read at byte offset `i * 4`, although `i` itself
already advances by 4 per iteration (`range(0, len(data), 4)`). -/
def STM32Crc32.update_fixed_name_loop (data : List Nat) (crc : Nat) :
    List Nat → Except PyError Nat
  | [] => .ok crc
  | i :: rest => do
      let tmp ← LittleEndian.bytes_to_int32 data (i * 4)
      STM32Crc32.update_fixed_name_loop data (STM32Crc32.crc32_fast crc tmp) rest

/-- `STM32Crc32.update` with only the attribute name repaired. -/
def STM32Crc32.update_fixed_name (crc : Nat) (data : List Nat) : Except PyError Nat :=
  if data.length % 4 ≠ 0 then .error .valueError
  else STM32Crc32.update_fixed_name_loop data crc (List.range' 0 (data.length / 4) 4)

/-- Modelled from the spec: the intended CRC update, which absorbs the input
as consecutive little-endian 4-byte words via `_crc32_fast`, rejecting any
input whose length is not a multiple of 4.  Named separately so it can be
compared against `STM32Crc32.update`, the function the source actually
contains. -/
def STM32Crc32.crc32_spec_words (crc : Nat) : List Nat → Except PyError Nat
  | [] => .ok crc
  | b0 :: b1 :: b2 :: b3 :: rest =>
      STM32Crc32.crc32_spec_words
        (STM32Crc32.crc32_fast crc (b0 + b1 * 2 ^ 8 + b2 * 2 ^ 16 + b3 * 2 ^ 24)) rest
  | _ => .error .valueError

/-! ## BlueSTSDK/Utils/UnwrapTimestamp.py -/

def UnwrapTimestamp.NEAR_TO_END_TH : Nat := (1 <<< 16) - 100

/-- State of `UnwrapTimestamp`: wrap counter `_reset_times` and the last raw
timestamp `_last_timestamp`. -/
structure UnwrapTimestamp where
  reset_times : Nat
  last_timestamp : Nat
  deriving DecidableEq, Repr

/-- Fresh `UnwrapTimestamp` state, as built by the constructor. -/
def UnwrapTimestamp.init : UnwrapTimestamp := ⟨0, 0⟩

/-- Embedding of `UnwrapTimestamp.unwrap`: bump `_reset_times` when the
previous raw timestamp was above the near-rollover threshold and strictly
above the new one, remember the new raw timestamp, and return
`reset_times * 2^16 + timestamp`. -/
def UnwrapTimestamp.unwrap (s : UnwrapTimestamp) (timestamp : Nat) :
    UnwrapTimestamp × Nat :=
  let reset :=
    if s.last_timestamp > UnwrapTimestamp.NEAR_TO_END_TH ∧
        s.last_timestamp > timestamp then
      s.reset_times + 1
    else s.reset_times
  (⟨reset, timestamp⟩, reset * (1 <<< 16) + timestamp)

/-- Feeding a raw timestamp sequence through `unwrap`, collecting the
returned unwrapped values. -/
def UnwrapTimestamp.unwrapList (s : UnwrapTimestamp) : List Nat → List Nat
  | [] => []
  | t :: ts =>
      let p := UnwrapTimestamp.unwrap s t
      p.2 :: UnwrapTimestamp.unwrapList p.1 ts

/-- Number of steps of a raw sequence that re-wrap (strictly decrease) while
the previous raw value does not exceed the near-rollover threshold, starting
from previous value `prev`; these are the artificial re-wraps of the claim. -/
def UnwrapTimestamp.artificialRewraps (prev : Nat) : List Nat → Nat
  | [] => 0
  | t :: ts =>
      (if t < prev ∧ prev ≤ UnwrapTimestamp.NEAR_TO_END_TH then 1 else 0) +
        UnwrapTimestamp.artificialRewraps t ts

/-! ## blue_st_sdk/feature.py — Sample -/

/-- Embedding of `Sample`: ordered value list `_data`, field descriptions
`_description` (abstracted to identifiers), device timestamp `_timestamp`,
and host reception instant `_notification_time`. -/
structure Sample where
  data : List Int
  description : List Nat
  timestamp : Int
  notification_time : Nat
  deriving DecidableEq, Repr

/-- A Python object handed to `Sample.equals`: either a `Sample` or a value
of some other class. -/
inductive PyObj
  | sampleVal (s : Sample)
  | otherVal (n : Nat)
  deriving DecidableEq, Repr

/-- Embedding of `Sample.equals`.  `if sample is None: return False` is the
only reachable return: the next statement evaluates
`isinstance(sample, self.Sample)`, and neither `Sample` instances nor the
`Sample` class have an attribute named `Sample`, so the lookup raises
`AttributeError` for every non-`None` argument. -/
def Sample.equals (_self : Sample) (sample : Option PyObj) : Except PyError Bool :=
  match sample with
  | none => .ok false
  | some _ => .error .attributeError

/-- The comparison expression guarded by the failing `isinstance` test in
`Sample.equals`:
`sample._timestamp == self._timestamp and sorted(sample._data) == sorted(self._data)`.
Note it compares the sorted copies of the value lists, not the ordered
lists. -/
def Sample.equals_comparison (self other : Sample) : Bool :=
  other.timestamp == self.timestamp &&
    List.insertionSort (· ≤ ·) other.data == List.insertionSort (· ≤ ·) self.data

/-- Embedding of `Sample.from_sample`.  The body's first statement is
`sample._data = copy_me._data.copy()`: `sample` is an unbound local name, so
the call raises `NameError` for every argument. -/
def Sample.from_sample (_copy_me : Sample) : Except PyError Sample :=
  .error .nameError

/-- Embedding of `Feature.get_sample`: when `_last_sample` is not `None`,
return `Sample.from_sample(self._last_sample)`; otherwise return `None`. -/
def Feature.get_sample (last_sample : Option Sample) : Except PyError (Option Sample) :=
  match last_sample with
  | some s => (Sample.from_sample s).map some
  | none => .ok none

/-! ## blue_st_sdk/feature.py — update and listener dispatch -/

/-- Where a callback-related step of `Feature.update` happens. -/
inductive DispatchEvent
  | listenerInvokedOnCallerThread
  | resultSubmittedToPool
  | loggerInvokedOnCallerThread
  | logResultSubmittedToPool
  deriving DecidableEq, Repr

/-- Embedding of `Feature._notify_update`.  The source line is
`self._thread_pool.submit(listener.on_update(self, sample))`: Python first
evaluates the argument, invoking `listener.on_update` on the caller's thread
(recorded as `listenerInvokedOnCallerThread`; an exception raised there
propagates), and only then submits the returned value to the pool
(`resultSubmittedToPool`). -/
def Feature.notify_update (listeners : List (Sample → Except PyError Unit))
    (sample : Sample) : Except PyError (List DispatchEvent) :=
  match listeners with
  | [] => .ok []
  | l :: ls =>
      match l sample with
      | .error e => .error e
      | .ok _ =>
          (Feature.notify_update ls sample).map
            (fun evs => DispatchEvent.listenerInvokedOnCallerThread ::
              DispatchEvent.resultSubmittedToPool :: evs)

/-- Embedding of `Feature._log_update`, which uses the same
`submit(logger.log_update(self, raw_data, sample))` pattern. -/
def Feature.log_update (loggers : List (List Nat → Sample → Except PyError Unit))
    (raw_data : List Nat) (sample : Sample) : Except PyError (List DispatchEvent) :=
  match loggers with
  | [] => .ok []
  | l :: ls =>
      match l raw_data sample with
      | .error e => .error e
      | .ok _ =>
          (Feature.log_update ls raw_data sample).map
            (fun evs => DispatchEvent.loggerInvokedOnCallerThread ::
              DispatchEvent.logResultSubmittedToPool :: evs)

/-- Embedding of `Feature.update`: extract a sample (the abstract
`extract_data` contract is passed as a function), publish it as the last
sample, then run `_notify_update` when notification is requested and
`_log_update` on the consumed byte range.  The result carries the new last
sample, the number of bytes read, and the dispatch trace; an exception from
a listener or logger propagates to the caller. -/
def Feature.update (extract : Int → List Nat → Nat → Sample × Nat)
    (listeners : List (Sample → Except PyError Unit))
    (loggers : List (List Nat → Sample → Except PyError Unit))
    (timestamp : Int) (data : List Nat) (offset : Nat) (notify_update : Bool) :
    Except PyError (Option Sample × Nat × List DispatchEvent) := do
  let extracted := extract timestamp data offset
  let sample := extracted.1
  let read_bytes := extracted.2
  let evs₁ ← if notify_update then Feature.notify_update listeners sample
             else .ok []
  let evs₂ ← Feature.log_update loggers ((data.drop offset).take read_bytes) sample
  .ok (some sample, read_bytes, evs₁ ++ evs₂)

/-! ## blue_st_sdk/advertising_data/blue_st_advertising_data_parser.py -/

/-- Embedding of `blue_st_sdk.node.NodeType`. -/
inductive NodeType
  | STEVAL_WESU1
  | SENSOR_TILE
  | BLUE_COIN
  | STEVAL_IDB008VX
  | STEVAL_BCN002V1
  | SENSOR_TILE_BOX
  | NUCLEO
  | GENERIC
  deriving DecidableEq, Repr

/-- Embedding of `BlueSTAdvertisingDataParser._get_node_type`. -/
def BlueSTAdvertisingDataParser.get_node_type (device_id : Nat) : NodeType :=
  let temp := device_id &&& 0xFF
  if temp = 0x01 then .STEVAL_WESU1
  else if temp = 0x02 then .SENSOR_TILE
  else if temp = 0x03 then .BLUE_COIN
  else if temp = 0x04 then .STEVAL_IDB008VX
  else if temp = 0x05 then .STEVAL_BCN002V1
  else if temp = 0x06 then .SENSOR_TILE_BOX
  else if 0x80 ≤ temp ∧ temp ≤ 0xFF then .NUCLEO
  else .GENERIC

/-- Embedding of `BlueSTAdvertisingDataParser._get_node_sleeping_status`:
`(node_type & 0x80) != 0x80 and (node_type & 0x40) == 0x40`. -/
def BlueSTAdvertisingDataParser.get_node_sleeping_status (node_type : Nat) : Bool :=
  node_type &&& 0x80 ≠ 0x80 ∧ node_type &&& 0x40 = 0x40

/-- Embedding of `BlueSTAdvertisingData` as returned by the parser.  The
device name and TX power are captured as the raw advertising-structure
values (`none` when the structure is absent, standing for the defaults
`'NO_NAME'` and `-1`); the manufacturer payload fields are decoded. -/
structure BlueSTAdvertisingData where
  name : Option (List Nat)
  tx_power : Option (List Nat)
  address : Option (List Nat)
  device_id : Nat
  device_type : NodeType
  protocol_version : Nat
  feature_mask : Nat
  sleeping : Bool
  deriving DecidableEq, Repr

/-- The scan loop at the top of `BlueSTAdvertisingDataParser.parse`:
each advertising structure is a `(type_code, value)` pair (bluepy's
`(adtype, description, value)` with the description dropped); the last
structure with a given recognised type code wins.  The manufacturer value is
carried as its decoded bytes: bluepy delivers it hex-encoded and the parser
measures `len(binascii.unhexlify(...))`, so the model works directly on the
decoded byte list.  Returns (name, tx_power, manufacturer_specific_data). -/
def BlueSTAdvertisingDataParser.scanAdv (advertising_data : List (Nat × List Nat)) :
    Option (List Nat) × Option (List Nat) × Option (List Nat) :=
  advertising_data.foldl
    (fun acc data =>
      if data.1 = 0x09 then (some data.2, acc.2.1, acc.2.2)
      else if data.1 = 0x0A then (acc.1, some data.2, acc.2.2)
      else if data.1 = 0xFF then (acc.1, acc.2.1, some data.2)
      else acc)
    (none, none, none)

/-- Embedding of `BlueSTAdvertisingDataParser.parse`.  Checks, in source
order: presence of the manufacturer-specific data; decoded byte length plus
one (the field-type byte hidden by bluepy) equal to 7 or 13; protocol
version (byte 0, the first two hex characters) within `[1, 1]`.  Then
decodes: device id from byte 1 (`& 0xFF` when the high bit is set, else
`& 0x1F`), node type, sleeping flag from the raw byte 1, the 32-bit feature
mask from bytes 2..5 (hex characters 4..11, big-endian), and the 6-byte
address (bytes 6..11) only for the 13-byte variant. -/
def BlueSTAdvertisingDataParser.parse (advertising_data : List (Nat × List Nat)) :
    Except PyError BlueSTAdvertisingData :=
  let scanned := BlueSTAdvertisingDataParser.scanAdv advertising_data
  let name := scanned.1
  let tx_power := scanned.2.1
  match scanned.2.2 with
  | none => .error .invalidAdvertisingData
  | some msd =>
      let length := msd.length + 1
      if length ≠ 7 ∧ length ≠ 13 then .error .invalidAdvertisingData
      else
        let protocol_version := msd.getD 0 0
        if protocol_version < 1 ∨ protocol_version > 1 then
          .error .invalidAdvertisingData
        else
          let b1 := msd.getD 1 0
          let device_id := if b1 &&& 0x80 = 0x80 then b1 &&& 0xFF else b1 &&& 0x1F
          let device_type := BlueSTAdvertisingDataParser.get_node_type device_id
          let sleeping := BlueSTAdvertisingDataParser.get_node_sleeping_status b1
          let feature_mask :=
            msd.getD 2 0 * 2 ^ 24 + msd.getD 3 0 * 2 ^ 16 +
              msd.getD 4 0 * 2 ^ 8 + msd.getD 5 0
          let address := if length = 13 then some ((msd.drop 6).take 6) else none
          .ok ⟨name, tx_power, address, device_id, device_type,
               protocol_version, feature_mask, sleeping⟩

/-! ## blue_st_sdk/node.py — Node._build_features -/

/-- Python `dict.get`-style lookup on an association list. -/
def assocLookup (l : List (Nat × α)) (k : Nat) : Option α :=
  (l.find? (fun p => p.1 = k)).map (·.2)

/-- The scan loop of `Node._build_features`: `mask` starts at `1 << 31` and
is shifted right once per iteration; for each iteration, if the
characteristic's feature mask has the bit set and `_mask_to_feature_dic`
holds a non-`None` feature for that single-bit mask, the feature is enabled
and appended.  Features are identifiers; a dictionary value of `none` models
a `None` entry. -/
def Node.build_features_loop (feature_mask : Nat) (dic : List (Nat × Option Nat)) :
    Nat → Nat → List Nat → List Nat
  | 0, _, features => features
  | n + 1, mask, features =>
      let features :=
        if feature_mask &&& mask ≠ 0 then
          match assocLookup dic mask with
          | some (some f) => features ++ [f]
          | _ => features
        else features
      Node.build_features_loop feature_mask dic n (mask >>> 1) features

/-- The ordered feature list `_build_features` computes for a characteristic
whose UUID encodes `feature_mask` (32 iterations from bit 31 down). -/
def Node.build_features_list (feature_mask : Nat) (dic : List (Nat × Option Nat)) :
    List Nat :=
  Node.build_features_loop feature_mask dic 32 (1 <<< 31) []

/-- Python dict assignment `d[k] = v` on an association-list model: replaces
the binding if the key is present, otherwise appends it. -/
def assocSet (l : List (Nat × α)) (k : Nat) (v : α) : List (Nat × α) :=
  if (l.find? (fun p => p.1 = k)).isSome then
    l.map (fun p => if p.1 = k then (k, v) else p)
  else l ++ [(k, v)]

/-- Embedding of the tail of `Node._build_features`: only when the computed
feature list is non-empty is an entry added to
`_update_char_handle_to_features_dict` for the characteristic's handle. -/
def Node.build_features (feature_mask : Nat) (dic : List (Nat × Option Nat))
    (char_handle : Nat) (handle_dict : List (Nat × List Nat)) :
    List (Nat × List Nat) :=
  let features := Node.build_features_list feature_mask dic
  if features.isEmpty then handle_dict
  else assocSet handle_dict char_handle features

/-- The most-significant-bit-first reading of the same scan: bits 31 down to
0 of the feature mask, keeping the registered non-`None` features.  Stated
from the spec's description of the scan order, to be compared with
`Node.build_features_list`. -/
def Node.msbFirstFeatures (feature_mask : Nat) (dic : List (Nat × Option Nat)) :
    List Nat :=
  ((List.range 32).reverse).filterMap
    (fun i =>
      if feature_mask &&& (1 <<< i) ≠ 0 then
        match assocLookup dic (1 <<< i) with
        | some (some f) => some f
        | _ => none
      else none)

/-! ## blue_st_sdk/manager.py — Manager.add_features_to_node -/

/-- Embedding of `Manager.add_features_to_node`.  The body's first statement
is `manager.discover(False, SCANNING_TIME_s)`; neither `manager` nor
`SCANNING_TIME_s` is bound in the classmethod's scope or at module level in
`blue_st_sdk/manager.py`, so every call raises `NameError` before the
features-decoder dictionary `_features_decoder_dic` is read or written.  The
state is the table mapping device identifiers to their mask-to-feature
decoders; it is returned unchanged alongside the raised error. -/
def Manager.add_features_to_node (features_decoder_dic : List (Nat × List (Nat × Nat)))
    (_device_id : Nat) (_mask_to_features_dic : List (Nat × Nat)) :
    List (Nat × List (Nat × Nat)) × Except PyError Unit :=
  (features_decoder_dic, .error .nameError)

/-- The validation loop `add_features_to_node` would run after the failing
statement (embedded for analysis of the registration discipline): for
`mask = 1 << 0` up to `1 << 31`, a dictionary entry whose key equals the
single-bit mask is copied into the device's decoder and removed from the
working copy; afterwards, if any entry remains (a key that is not a single
bit), `BlueSTInvalidFeatureBitMaskException` is raised — with the valid
entries already registered in the decoder. -/
def Manager.add_features_validation (decoder : List (Nat × Nat))
    (mask_to_features_dic : List (Nat × Nat)) :
    List (Nat × Nat) × Except PyError Unit :=
  let step :=
    (List.range 32).foldl
      (fun (acc : List (Nat × Nat) × List (Nat × Nat)) i =>
        let mask := 1 <<< i
        match assocLookup acc.2 mask with
        | some f => (assocSet acc.1 mask f, acc.2.filter (fun p => p.1 ≠ mask))
        | none => acc)
      (decoder, mask_to_features_dic)
  if step.2.isEmpty then (step.1, .ok ())
  else (step.1, .error .invalidFeatureBitmask)

/-! ## blue_st_sdk/firmware_upgrade/firmware_upgrade_nucleo.py -/

/-- Embedding of `LoadingFileStatus`. -/
inductive LoadingFileStatus
  | CRC_CHECK
  | ACK_CHECK
  deriving DecidableEq, Repr

/-- Firmware-upgrade terminal error codes reported through the error
callback. -/
inductive FwError
  | transmissionError
  | corruptedFileError
  deriving DecidableEq, Repr

/-- Observable actions of the upload state machine: callbacks invoked on the
user listener and writes to the debug console. -/
inductive FwEvent
  | errorReported (e : FwError)
  | completeReported (bytes_sent : Nat)
  | progressReported (bytes_sent total : Nat)
  | wroteCommand (command : List Nat)
  | wroteData (data : List Nat)
  deriving DecidableEq, Repr

/-- State of `FirmwareUpgradeDebugConsoleListener` together with its
environment: the upload status, the file size reported by
`FirmwareFile.get_size()`, the bytes still readable from the opened file
descriptor, the CRC sent in the command, `_bytes_sent`,
`_number_of_packets_received`, whether the listener is still registered on
the debug console (cleared by `_set_listener(None)` inside
`_on_load_error` / `_on_load_complete`), and the event trace. -/
structure FwListenerState where
  status : LoadingFileStatus
  firmware_size : Nat
  firmware_content : List Nat
  firmware_crc : Nat
  bytes_sent : Nat
  packets_received : Nat
  attached : Bool
  events : List FwEvent
  deriving DecidableEq, Repr

def FirmwareUpgrade.MAX_MSG_SIZE : Nat := 16

def FirmwareUpgrade.BLOCK_OF_PACKETS_SIZE : Nat := 10

/-- The bytes of `FIRMWARE_UPGRADE_COMMAND = b'upgradeFw'`. -/
def FirmwareUpgrade.FIRMWARE_UPGRADE_COMMAND : List Nat :=
  [117, 112, 103, 114, 97, 100, 101, 70, 119]

/-- Embedding of `_on_load_error`: report the error to every registered
upgrade listener (one listener modelled), then detach via
`_set_listener(None)`. -/
def FwListenerState.on_load_error (st : FwListenerState) (e : FwError) :
    FwListenerState :=
  { st with events := st.events ++ [.errorReported e], attached := false }

/-- Embedding of `_on_load_complete`: report completion with `_bytes_sent`,
then detach via `_set_listener(None)`. -/
def FwListenerState.on_load_complete (st : FwListenerState) : FwListenerState :=
  { st with events := st.events ++ [.completeReported st.bytes_sent],
            attached := false }

/-- One iteration of the packet loop in `_send_block`: read
`min(get_size() - bytes_sent, MAX_MSG_SIZE)` bytes from the file descriptor
(a short read, possible when the file holds fewer bytes than `get_size()`
reported, makes the block fail); on success `_bytes_sent` is advanced and
the data written to the debug console, whose `write` returns the number of
bytes given to it, so the size check on the write passes. -/
def FwListenerState.send_packet (st : FwListenerState) : FwListenerState × Bool :=
  let size_to_read := min (st.firmware_size - st.bytes_sent)
    FirmwareUpgrade.MAX_MSG_SIZE
  let data := st.firmware_content.take size_to_read
  if data.length ≠ size_to_read then (st, false)
  else
    ({ st with firmware_content := st.firmware_content.drop size_to_read,
               bytes_sent := st.bytes_sent + size_to_read,
               events := st.events ++ [.wroteData data] }, true)

/-- The packet loop of `_send_block`, over `range(0, BLOCK_OF_PACKETS_SIZE)`,
stopping at the first failure. -/
def FwListenerState.send_block_loop (st : FwListenerState) :
    Nat → FwListenerState × Bool
  | 0 => (st, true)
  | n + 1 =>
      let p := st.send_packet
      if p.2 then p.1.send_block_loop n else (p.1, false)

/-- Embedding of `_send_block` (`_get_block_size()` returns
`BLOCK_OF_PACKETS_SIZE`). -/
def FwListenerState.send_block (st : FwListenerState) : FwListenerState × Bool :=
  st.send_block_loop FirmwareUpgrade.BLOCK_OF_PACKETS_SIZE

/-- The `while self._firmware_file.get_size() - self._bytes_sent > 0` loop of
`on_stdout_receive`: send blocks until everything is sent, reporting
`CORRUPTED_FILE_ERROR` and breaking when a block fails.  Fuel bounds the
iteration count; `firmware_size + 1` is always enough because a successful
block advances `bytes_sent`. -/
def FwListenerState.send_all_loop : Nat → FwListenerState → FwListenerState
  | 0, st => st
  | fuel + 1, st =>
      if st.firmware_size - st.bytes_sent > 0 then
        let p := st.send_block
        if p.2 then FwListenerState.send_all_loop fuel p.1
        else p.1.on_load_error .corruptedFileError
      else st

/-- Embedding of `on_stdout_receive`.  In `CRC_CHECK`, a message different
from the little-endian bytes of the locally computed CRC triggers
`_on_load_error(TRANSMISSION_ERROR)`; the source then falls through (there
is no `return`), switches to `ACK_CHECK`, resets the packet counter and
sends the file in blocks.  In `ACK_CHECK`, the single-byte message `0x01`
(`ACK_MSG`) triggers `_on_load_complete`, anything else
`_on_load_error(CORRUPTED_FILE_ERROR)`. -/
def FwListenerState.on_stdout_receive (st : FwListenerState) (message : List Nat) :
    FwListenerState :=
  match st.status with
  | .CRC_CHECK =>
      let st :=
        if message ≠ LittleEndian.uint32_to_bytes st.firmware_crc then
          st.on_load_error .transmissionError
        else st
      let st := { st with status := .ACK_CHECK, packets_received := 0 }
      FwListenerState.send_all_loop (st.firmware_size + 1) st
  | .ACK_CHECK =>
      if message = [1] then st.on_load_complete
      else st.on_load_error .corruptedFileError

/-- The debug console delivers a stdout message to the listener only while
the listener is registered (`DebugConsole.on_update_characteristic` iterates
`_listeners`, from which `_set_listener(None)` removed it). -/
def FwListenerState.deliver_stdout (st : FwListenerState) (message : List Nat) :
    FwListenerState :=
  if st.attached then st.on_stdout_receive message else st

/-- Embedding of `load_file`: record the firmware file (its reported size
and the bytes its descriptor can deliver), take the computed CRC 32 as a
parameter (`FirmwareFile.get_crc_32` itself raises, see `STM32Crc32.update`),
write the command frame `b'upgradeFw' + size (4 bytes LE) + crc (4 bytes
LE)`, and enter `CRC_CHECK`. -/
def FwListenerState.load_file (firmware_size : Nat) (firmware_content : List Nat)
    (firmware_crc : Nat) : FwListenerState :=
  { status := .CRC_CHECK
    firmware_size := firmware_size
    firmware_content := firmware_content
    firmware_crc := firmware_crc
    bytes_sent := 0
    packets_received := 0
    attached := true
    events := [.wroteCommand (FirmwareUpgrade.FIRMWARE_UPGRADE_COMMAND ++
      LittleEndian.uint32_to_bytes firmware_size ++
      LittleEndian.uint32_to_bytes firmware_crc)] }

/-- One run of the upload state machine: `load_file` followed by the stdout
messages the device sends, delivered in order. -/
def FwListenerState.run_upload (firmware_size : Nat) (firmware_content : List Nat)
    (firmware_crc : Nat) (messages : List (List Nat)) : FwListenerState :=
  messages.foldl FwListenerState.deliver_stdout
    (FwListenerState.load_file firmware_size firmware_content firmware_crc)

/-- Number of terminal reports (error or complete callbacks) in a trace. -/
def FwEvent.terminalReports (events : List FwEvent) : Nat :=
  events.countP (fun e =>
    match e with
    | .errorReported _ => true
    | .completeReported _ => true
    | _ => false)

/-- Total number of firmware bytes written to the debug console in a trace
(the command frame is not firmware data). -/
def FwEvent.firmwareBytesWritten (events : List FwEvent) : Nat :=
  (events.map (fun e =>
    match e with
    | .wroteData data => data.length
    | _ => 0)).sum

/-- The contribution of one scan position to the feature list of
`Node._build_features`: the registered non-`None` feature for single-bit
mask `mask`, provided the characteristic's feature mask has that bit set. -/
def Node.pickFeature (feature_mask : Nat) (dic : List (Nat × Option Nat))
    (mask : Nat) : Option Nat :=
  if feature_mask &&& mask ≠ 0 then
    match assocLookup dic mask with
    | some (some f) => some f
    | _ => none
  else none

/-! ## Supporting lemmas -/

theorem Node.build_features_loop_succ (fm : Nat) (dic : List (Nat × Option Nat))
    (n mask : Nat) (acc : List Nat) :
    Node.build_features_loop fm dic (n + 1) mask acc =
      Node.build_features_loop fm dic n (mask >>> 1)
        (acc ++ (Node.pickFeature fm dic mask).toList) := by
  show (let features := _; Node.build_features_loop fm dic n (mask >>> 1) features) = _
  unfold Node.pickFeature
  by_cases hb : fm &&& mask ≠ 0
  · simp only [if_pos hb]
    rcases h : assocLookup dic mask with _ | g
    · simp [h]
    · rcases g with _ | f <;> simp [h]
  · simp [if_neg hb]

theorem Node.build_features_loop_eq (fm : Nat) (dic : List (Nat × Option Nat)) :
    ∀ (n : Nat) (mask : Nat) (acc : List Nat),
      Node.build_features_loop fm dic n mask acc =
        acc ++ ((List.range n).map (fun j => mask >>> j)).filterMap
          (Node.pickFeature fm dic) := by
  intro n
  induction n with
  | zero => intro mask acc; simp [Node.build_features_loop]
  | succ n ih =>
      intro mask acc
      have hmask : ((fun j => mask >>> j) ∘ Nat.succ) =
          fun j => (mask >>> 1) >>> j := by
        funext j
        simp only [Function.comp_apply, ← Nat.shiftRight_add, Nat.add_comm]
      rw [Node.build_features_loop_succ, ih, List.range_succ_eq_map,
        List.map_cons, List.map_map, hmask, List.filterMap_cons]
      rcases hpick : Node.pickFeature fm dic mask with _ | f <;>
        simp [hpick, Nat.shiftRight_zero]

theorem Node.build_features_list_eq_msbFirst (fm : Nat)
    (dic : List (Nat × Option Nat)) :
    Node.build_features_list fm dic = Node.msbFirstFeatures fm dic := by
  rw [Node.build_features_list, Node.build_features_loop_eq, Node.msbFirstFeatures]
  have h1 : (fun i : Nat =>
      if fm &&& (1 <<< i) ≠ 0 then
        match assocLookup dic (1 <<< i) with
        | some (some f) => some f
        | _ => none
      else none) = (Node.pickFeature fm dic) ∘ (fun i => 1 <<< i) := rfl
  rw [h1, ← List.filterMap_map, List.nil_append]
  congr 1

theorem UnwrapTimestamp.unwrap_chain_aux :
    ∀ (raws : List Nat) (s : UnwrapTimestamp),
      (∀ t ∈ raws, t < 2 ^ 16) →
      UnwrapTimestamp.artificialRewraps s.last_timestamp raws = 0 →
      s.last_timestamp < 2 ^ 16 →
      List.Chain (· ≤ ·) (s.reset_times * 2 ^ 16 + s.last_timestamp)
        (UnwrapTimestamp.unwrapList s raws) := by
  intro raws
  induction raws with
  | nil => intro s _ _ _; exact List.Chain.nil
  | cons t ts ih =>
      intro s hbound hzero hlast
      have hz : (if t < s.last_timestamp ∧
            s.last_timestamp ≤ UnwrapTimestamp.NEAR_TO_END_TH then 1 else 0) = 0 ∧
          UnwrapTimestamp.artificialRewraps t ts = 0 := by
        have := hzero
        unfold UnwrapTimestamp.artificialRewraps at this
        omega
      have ht : t < 2 ^ 16 := hbound t (by simp)
      rcases hz with ⟨hz1, hz2⟩
      show List.Chain _ _ ((UnwrapTimestamp.unwrap s t).2 ::
        UnwrapTimestamp.unwrapList (UnwrapTimestamp.unwrap s t).1 ts)
      have hstate : (UnwrapTimestamp.unwrap s t).1 =
          ⟨(UnwrapTimestamp.unwrap s t).1.reset_times, t⟩ := by
        unfold UnwrapTimestamp.unwrap
        split <;> rfl
      have hval : (UnwrapTimestamp.unwrap s t).2 =
          (UnwrapTimestamp.unwrap s t).1.reset_times * 2 ^ 16 + t := by
        unfold UnwrapTimestamp.unwrap
        split <;> simp [Nat.shiftLeft_eq]
      apply List.Chain.cons
      · rw [hval]
        by_cases hcond : s.last_timestamp > UnwrapTimestamp.NEAR_TO_END_TH ∧
            s.last_timestamp > t
        · have hr : (UnwrapTimestamp.unwrap s t).1.reset_times =
              s.reset_times + 1 := by
            unfold UnwrapTimestamp.unwrap
            rw [if_pos hcond]
          rw [hr]
          have : s.last_timestamp < 2 ^ 16 := hlast
          nlinarith [Nat.le_of_lt this]
        · have hr : (UnwrapTimestamp.unwrap s t).1.reset_times = s.reset_times := by
            unfold UnwrapTimestamp.unwrap
            rw [if_neg hcond]
          rw [hr]
          have hnotand : ¬ (t < s.last_timestamp ∧
              s.last_timestamp ≤ UnwrapTimestamp.NEAR_TO_END_TH) := by
            intro hc
            rw [if_pos hc] at hz1
            exact Nat.one_ne_zero hz1
          have hle : s.last_timestamp ≤ t := by
            by_cases hth : s.last_timestamp > UnwrapTimestamp.NEAR_TO_END_TH
            · push_neg at hcond
              exact hcond hth
            · push_neg at hth
              by_contra hgt
              push_neg at hgt
              exact hnotand ⟨hgt, hth⟩
          omega
      · rw [hval]
        have hlast' : (UnwrapTimestamp.unwrap s t).1.last_timestamp = t := by
          rw [hstate]
        have happly := ih (UnwrapTimestamp.unwrap s t).1
          (fun x hx => hbound x (List.mem_cons_of_mem _ hx))
          (by rw [hlast']; exact hz2) (by rw [hlast']; exact ht)
        rw [hlast'] at happly
        exact happly

/-! ## Claims -/

/-- C1.  The claim states that a CRC echo differing from the locally computed
CRC makes the upload fail with `TransmissionError` and abort before any
firmware bytes are transmitted.  The code does report `TransmissionError`
while `bytes_sent` is still zero (the first two trace events are the command
write and the error report), but `on_stdout_receive` has no `return` after
the error: it falls through and transmits the complete 16-byte firmware
anyway (`firmwareBytesWritten = 16`, `bytes_sent = 16`). -/
theorem c1_crc_mismatch_error_then_firmware_still_sent :
    (FwListenerState.run_upload 16 (List.replicate 16 7) 0
        [LittleEndian.uint32_to_bytes 1]).events.take 2 =
      [FwEvent.wroteCommand (FirmwareUpgrade.FIRMWARE_UPGRADE_COMMAND ++
          LittleEndian.uint32_to_bytes 16 ++ LittleEndian.uint32_to_bytes 0),
        FwEvent.errorReported FwError.transmissionError] ∧
    FwEvent.firmwareBytesWritten
      ((FwListenerState.run_upload 16 (List.replicate 16 7) 0
        [LittleEndian.uint32_to_bytes 1]).events) = 16 ∧
    (FwListenerState.run_upload 16 (List.replicate 16 7) 0
        [LittleEndian.uint32_to_bytes 1]).bytes_sent = 16 :=
  ⟨rfl, rfl, rfl⟩

/-- C2.  The claim states that the CRC engine absorbs 4-byte-aligned input
as consecutive little-endian words and reproduces a golden value.  In the
code, `STM32Crc32.update` raises `AttributeError` on every non-empty
4-byte-aligned input (it calls `LittleEndian.bytesToInt32`, which does not
exist in `blue_st_sdk.utils.number_conversion`); with just the name
repaired, the word offset `i * 4` (with `i` already stepping by 4) makes any
input of two or more words read out of range (`struct.error`), while a
single-word input and the spec's consecutive-word engine agree on the golden
value 0xC704DD7B for a zero word.  Non-multiple-of-4 input is rejected with
`ValueError` as documented. -/
theorem c2_crc_update_raises_instead_of_absorbing_words :
    STM32Crc32.update STM32Crc32.INITIAL_VALUE [0, 0, 0, 0] =
        .error .attributeError ∧
    STM32Crc32.update_fixed_name STM32Crc32.INITIAL_VALUE
        [0, 0, 0, 0, 0, 0, 0, 0] = .error .structError ∧
    STM32Crc32.update_fixed_name STM32Crc32.INITIAL_VALUE [0, 0, 0, 0] =
        .ok 0xC704DD7B ∧
    STM32Crc32.crc32_spec_words STM32Crc32.INITIAL_VALUE [0, 0, 0, 0] =
        .ok 0xC704DD7B ∧
    STM32Crc32.crc32_spec_words STM32Crc32.INITIAL_VALUE
        [0, 0, 0, 0, 0, 0, 0, 0] = .ok 1761917785 ∧
    STM32Crc32.update STM32Crc32.INITIAL_VALUE [0, 0, 0] = .error .valueError :=
  ⟨rfl, rfl, rfl, rfl, rfl, rfl⟩

/-- C3 counterexample.  The claim states that `add_features_to_node` with a
dictionary containing the two-bit key 3 raises the invalid-feature-bitmask
exception; in fact it returns `NameError` (from the unbound names `manager`
and `SCANNING_TIME_s` in its first statement), which is a different
exception. -/
theorem c3_counterexample_name_error_not_bitmask_error :
    Manager.add_features_to_node [] 128 [(3, 7)] = ([], .error .nameError) ∧
    (([], Except.error PyError.nameError) :
        List (Nat × List (Nat × Nat)) × Except PyError Unit) ≠
      ([], .error .invalidFeatureBitmask) :=
  ⟨rfl, by simp⟩

/-- C3 amended.  Every call of `Manager.add_features_to_node` raises
`NameError` before touching the features-decoder table, which is therefore
left unchanged — `InvalidFeatureBitmask` is never raised.  Moreover the
validation loop that follows the failing statement is not atomic: run on a
dictionary holding the valid key 1 next to the two-bit key 3, it registers
the valid entry into the decoder and only then reports
`InvalidFeatureBitmask`. -/
theorem c3_add_features_name_error_table_unchanged :
    (∀ (tables : List (Nat × List (Nat × Nat))) (device_id : Nat)
        (dic : List (Nat × Nat)),
      Manager.add_features_to_node tables device_id dic =
        (tables, .error .nameError)) ∧
    Manager.add_features_validation [] [(1, 10), (3, 11)] =
      ([(1, 10)], .error .invalidFeatureBitmask) :=
  ⟨fun _ _ _ => rfl, rfl⟩

/-- C4.  The claim states that listener invocations are dispatched to a
worker and that listener exceptions never propagate out of `update`.  In the
code, `_notify_update` evaluates `listener.on_update(self, sample)` on the
caller's thread and submits only its result to the pool: with a raising
listener the whole `update` call returns that exception, and with a benign
listener the dispatch trace shows the invocation happening on the caller's
thread before the submission. -/
theorem c4_listener_called_synchronously_and_exception_propagates :
    Feature.update (fun _ _ _ => (⟨[1], [], 0, 0⟩, 2))
        [fun _ => .error .valueError] [] 0 [0, 1, 2, 3] 0 true =
      .error .valueError ∧
    Feature.update (fun _ _ _ => (⟨[1], [], 0, 0⟩, 2))
        [fun _ => .ok ()] [] 0 [0, 1, 2, 3] 0 true =
      .ok (some ⟨[1], [], 0, 0⟩, 2,
        [DispatchEvent.listenerInvokedOnCallerThread,
         DispatchEvent.resultSubmittedToPool]) :=
  ⟨rfl, rfl⟩

/-- C5 counterexample.  The raw sequence `[200, 100]` re-wraps below the
rollover threshold only once — so it satisfies the claim's "not twice"
hypothesis — yet its unwrapped values `[200, 100]` are not monotonically
non-decreasing. -/
theorem c5_counterexample_single_artificial_rewrap_not_monotone :
    (∀ t ∈ [200, 100], t < 2 ^ 16) ∧
    UnwrapTimestamp.artificialRewraps UnwrapTimestamp.init.last_timestamp
      [200, 100] ≤ 1 ∧
    UnwrapTimestamp.unwrapList UnwrapTimestamp.init [200, 100] = [200, 100] ∧
    ¬ List.Chain' (· ≤ ·)
      (UnwrapTimestamp.unwrapList UnwrapTimestamp.init [200, 100]) :=
  ⟨by decide, by decide, rfl, by
    rw [show UnwrapTimestamp.unwrapList UnwrapTimestamp.init [200, 100] =
      [200, 100] from rfl]
    intro h
    exact absurd (List.Chain'.rel_head h) (by omega)⟩

/-- C5 amended.  For 16-bit raw sequences with no artificial re-wrap at all
(every strict decrease happens from a previous raw value above the
threshold 65436), the unwrapped values are monotonically non-decreasing;
each returned value equals `reset_times * 2^16 + raw`, and the wrap counter
is incremented exactly when the previous raw value exceeded the threshold
and the new one is smaller. -/
theorem c5_unwrap_monotone_without_artificial_rewraps (raws : List Nat)
    (hbound : ∀ t ∈ raws, t < 2 ^ 16)
    (hnone : UnwrapTimestamp.artificialRewraps
      UnwrapTimestamp.init.last_timestamp raws = 0) :
    List.Chain' (· ≤ ·) (UnwrapTimestamp.unwrapList UnwrapTimestamp.init raws) ∧
    (∀ (s : UnwrapTimestamp) (t : Nat),
      (UnwrapTimestamp.unwrap s t).2 =
        (UnwrapTimestamp.unwrap s t).1.reset_times * 2 ^ 16 + t ∧
      (UnwrapTimestamp.unwrap s t).1.reset_times =
        (if s.last_timestamp > UnwrapTimestamp.NEAR_TO_END_TH ∧
            t < s.last_timestamp
         then s.reset_times + 1 else s.reset_times)) := by
  constructor
  · have haux := UnwrapTimestamp.unwrap_chain_aux raws UnwrapTimestamp.init
      hbound hnone (by decide)
    have h0 : UnwrapTimestamp.init.reset_times * 2 ^ 16 +
        UnwrapTimestamp.init.last_timestamp = 0 := by decide
    rw [h0] at haux
    exact List.Chain'.tail
      (l := 0 :: UnwrapTimestamp.unwrapList UnwrapTimestamp.init raws) haux
  · intro s t
    constructor
    · unfold UnwrapTimestamp.unwrap
      split <;> simp [Nat.shiftLeft_eq]
    · rfl

/-- C5 witness: the amended monotonicity theorem applied to the concrete raw
sequence `[65500, 10, 20]`, which wraps genuinely (from above the
threshold). -/
theorem c5_unwrap_monotone_witness :
    (∀ t ∈ [65500, 10, 20], t < 2 ^ 16) ∧
    UnwrapTimestamp.artificialRewraps UnwrapTimestamp.init.last_timestamp
      [65500, 10, 20] = 0 ∧
    List.Chain' (· ≤ ·)
      (UnwrapTimestamp.unwrapList UnwrapTimestamp.init [65500, 10, 20]) :=
  ⟨by decide, by decide,
    (c5_unwrap_monotone_without_artificial_rewraps [65500, 10, 20]
      (by decide) (by decide)).1⟩

/-- C6.  `BlueSTAdvertisingDataParser.parse` fails — always with the typed
invalid-advertising-data error, never with a partial result — exactly when
the manufacturer-specific structure is absent, or the decoded payload length
plus one is neither 7 nor 13, or the protocol-version byte is outside
`[1, 1]`; on every other input it returns a fully populated descriptor.  The
embedding is a pure function, so parsing performs no I/O. -/
theorem c6_parse_error_iff_malformed (adv : List (Nat × List Nat)) :
    (BlueSTAdvertisingDataParser.parse adv = .error .invalidAdvertisingData ∨
      ∃ d, BlueSTAdvertisingDataParser.parse adv = .ok d) ∧
    (BlueSTAdvertisingDataParser.parse adv = .error .invalidAdvertisingData ↔
      ((BlueSTAdvertisingDataParser.scanAdv adv).2.2 = none ∨
        ∃ msd, (BlueSTAdvertisingDataParser.scanAdv adv).2.2 = some msd ∧
          ((msd.length + 1 ≠ 7 ∧ msd.length + 1 ≠ 13) ∨
            msd.getD 0 0 < 1 ∨ 1 < msd.getD 0 0))) := by
  unfold BlueSTAdvertisingDataParser.parse
  rcases h : (BlueSTAdvertisingDataParser.scanAdv adv).2.2 with _ | msd
  · simp [h]
  · simp only [h]
    by_cases hlen : msd.length + 1 ≠ 7 ∧ msd.length + 1 ≠ 13
    · rw [if_pos hlen]
      refine ⟨Or.inl rfl, ?_, fun _ => rfl⟩
      intro _
      exact Or.inr ⟨msd, rfl, Or.inl hlen⟩
    · rw [if_neg hlen]
      by_cases hver : msd.getD 0 0 < 1 ∨ msd.getD 0 0 > 1
      · rw [if_pos hver]
        refine ⟨Or.inl rfl, ?_, fun _ => rfl⟩
        intro _
        exact Or.inr ⟨msd, rfl, Or.inr hver⟩
      · rw [if_neg hver]
        refine ⟨Or.inr ⟨_, rfl⟩, ?_, ?_⟩
        · intro hco
          exact absurd hco (by simp)
        · intro hrhs
          rcases hrhs with hnone | ⟨msd', heq, hbad⟩
          · exact Option.noConfusion hnone
          · cases Option.some.inj heq
            rcases hbad with hb | hb
            · exact absurd hb hlen
            · exact absurd hb hver

/-- C7.  The feature list `Node._build_features` computes equals the
most-significant-bit-first scan of the characteristic's feature mask over
the registered features; for mask `0x00C00000` with accelerometer (id 1) on
bit 23 and gyroscope (id 2) on bit 22, exactly the two features `[1, 2]`
(accelerometer first) are bound to the characteristic; and a characteristic
whose mask matches no registered feature adds no entry to the
handle-to-features dictionary. -/
theorem c7_build_features_msb_first :
    (∀ (fm : Nat) (dic : List (Nat × Option Nat)),
      Node.build_features_list fm dic = Node.msbFirstFeatures fm dic) ∧
    Node.build_features_list 0xC00000 [(1 <<< 23, some 1), (1 <<< 22, some 2)] =
      [1, 2] ∧
    Node.build_features 0xC00000 [(1 <<< 23, some 1), (1 <<< 22, some 2)] 42 [] =
      [(42, [1, 2])] ∧
    (∀ (fm : Nat) (dic : List (Nat × Option Nat)) (char_handle : Nat)
        (handle_dict : List (Nat × List Nat)),
      Node.build_features_list fm dic = [] →
        Node.build_features fm dic char_handle handle_dict = handle_dict) := by
  refine ⟨Node.build_features_list_eq_msbFirst, by decide, by decide, ?_⟩
  intro fm dic char_handle handle_dict hempty
  simp [Node.build_features, hempty]

/-- C7 witness: the no-matching-feature conjunct applied at mask 0 with an
empty decoder table. -/
theorem c7_build_features_witness :
    Node.build_features_list 0 [] = [] ∧ Node.build_features 0 [] 1 [] = [] :=
  ⟨by decide, c7_build_features_msb_first.2.2.2 0 [] 1 [] (by decide)⟩

/-- C8.  The claim states that a run of the upload state machine reports
termination exactly once.  In the run where the device echoes a wrong CRC
and the firmware file delivers fewer bytes than its reported size, the
handler reports `TransmissionError`, falls through (missing `return`),
attempts to send the firmware, and reports `CorruptedFileError` as well:
two terminal reports in a single run. -/
theorem c8_upload_reports_termination_twice :
    (FwListenerState.run_upload 16 [] 0 [LittleEndian.uint32_to_bytes 1]).events =
      [FwEvent.wroteCommand (FirmwareUpgrade.FIRMWARE_UPGRADE_COMMAND ++
          LittleEndian.uint32_to_bytes 16 ++ LittleEndian.uint32_to_bytes 0),
        FwEvent.errorReported FwError.transmissionError,
        FwEvent.errorReported FwError.corruptedFileError] ∧
    FwEvent.terminalReports
      ((FwListenerState.run_upload 16 [] 0
        [LittleEndian.uint32_to_bytes 1]).events) = 2 :=
  ⟨rfl, rfl⟩

/-- C9 counterexample.  Two samples with equal timestamps and equal ordered
value lists: the claim says `equals` returns `True`, but the call raises
`AttributeError` (the guard evaluates `self.Sample`, an attribute neither
`Sample` instances nor the `Sample` class possess). -/
theorem c9_counterexample_equal_samples_raise :
    Sample.equals ⟨[1, 2], [], 5, 0⟩ (some (PyObj.sampleVal ⟨[1, 2], [], 5, 0⟩)) =
      .error .attributeError ∧
    Sample.equals ⟨[1, 2], [], 5, 0⟩ (some (PyObj.sampleVal ⟨[1, 2], [], 5, 0⟩)) ≠
      .ok true :=
  ⟨rfl, by simp [Sample.equals]⟩

/-- C9 amended.  `Sample.equals` returns `False` for a `None` argument and
raises `AttributeError` for every other argument (`self.Sample` is not an
attribute of `Sample`); the comparison it guards — were it reachable —
compares timestamps and the *sorted* value lists, so it would even rate two
samples with permuted values as equal. -/
theorem c9_equals_none_false_otherwise_attribute_error :
    (∀ s : Sample, Sample.equals s none = .ok false) ∧
    (∀ (s : Sample) (x : PyObj), Sample.equals s (some x) =
      .error .attributeError) ∧
    Sample.equals_comparison ⟨[1, 2], [], 5, 0⟩ ⟨[2, 1], [], 5, 0⟩ = true :=
  ⟨fun _ => rfl, fun _ _ => rfl, by decide⟩

/-- C10.  `Feature.get_sample` raises `NameError` whenever a last sample
exists (`Sample.from_sample` assigns to the unbound local `sample` as its
first statement) and returns `None` exactly when no sample has ever been
received. -/
theorem c10_get_sample_name_error_or_none :
    (∀ s : Sample, Feature.get_sample (some s) = .error .nameError) ∧
    (∀ opt : Option Sample, Feature.get_sample opt = .ok none ↔ opt = none) := by
  refine ⟨fun _ => rfl, ?_⟩
  intro opt
  cases opt <;> simp [Feature.get_sample, Sample.from_sample, Except.map]
